import Mathlib

/-!
Verification of the payload-construction logic of
`sentinelhub/sentinelhub_statistical.py` (Sentinel Hub Statistical API
request builder).  Python dictionaries are embedded as insertion-ordered
association lists over a JSON-like value type; the in-place mutation of the
caller-supplied `request_data` sequence is embedded by explicit state
passing: the normalized sequence is a function of the input sequence, and
the payload embeds it.
-/

namespace SentinelhubStatistical

/-- A JSON-like value, the universe of Python values this module handles:
strings, numbers, `None`, lists and dictionaries (insertion-ordered
association lists, as Python dicts are). -/
inductive Json where
  | null : Json
  | str : String → Json
  | num : Int → Json
  | arr : List Json → Json
  | obj : List (String × Json) → Json

/-- A Python dictionary with string keys: an insertion-ordered association
list. -/
abbrev Dict := List (String × Json)

/-- The Python membership test `key in dict`. -/
def hasKey (d : Dict) (k : String) : Bool :=
  d.any fun p => p.1 == k

/-- The Python `dict[key]` lookup (first binding wins; well-formed dicts have
unique keys). -/
def lookup : Dict → String → Option Json
  | [], _ => none
  | (k, v) :: rest, q => if k == q then some v else lookup rest q

/-- The Python assignment `dict[key] = value`: replace the first binding of the key when
present, otherwise append a fresh binding at the end (Python dicts keep
insertion order and appending a new key puts it last). -/
def setKey : Dict → String → Json → Dict
  | [], q, v => [(q, v)]
  | (k, w) :: rest, q, v =>
      if k == q then (k, v) :: rest else (k, w) :: setKey rest q v

/-- Python truthiness of an optional dictionary argument (`if other_args:`):
`None` and the empty dictionary are falsy, every non-empty dictionary is
truthy. -/
def truthy : Option Dict → Bool
  | none => false
  | some d => !d.isEmpty

/-- Modelled from the spec: the deep-merge collaborator `_update_other_args`
lives in the `sh_utils` module, which is outside the examined source.  The
spec pins down only that it merges `other_args` into the payload with the
overrides winning on conflicting keys, and explicitly leaves the merge depth
an open question; it is modelled here as a key-wise override.  No settled
claim depends on the merge result: the claims concern only the truthiness
guard that decides whether the merge runs at all. -/
def update_other_args (target : Dict) (other_args : Dict) : Dict :=
  other_args.foldl (fun acc p => setKey acc p.1 p.2) target

/-- The in-place normalization `body` performs on one element of
`request_data`: when the element has no dataFilter key, the empty object is
assigned to it (a fresh key is appended at the end of the insertion order
of the dictionary). -/
def normalize_data_filter (input_data_payload : Dict) : Dict :=
  if hasKey input_data_payload "dataFilter" then input_data_payload
  else input_data_payload ++ [("dataFilter", Json.obj [])]

/-- The value of the caller-supplied `request_data` sequence after `body`
has run: `body` mutates each element in place, so after the call the
sequence of the caller holds exactly these dictionaries, and the
`input.data` slot of the payload references this same sequence. -/
def mutated_request_data (request_data : List Dict) : List Dict :=
  request_data.map normalize_data_filter

/-- `SentinelHubStatistical.body`: generates the Statistical API request
body.  The in-place `dataFilter` normalization is embedded through
`mutated_request_data`; `calculations = None` is replaced by
`{"default": {}}`; the merge with `other_args` runs only when `other_args`
is truthy. -/
def body (request_bounds : Json) (request_data : List Dict) (aggregation : Json)
    (calculations : Option Dict) (other_args : Option Dict) : Dict :=
  let data := mutated_request_data request_data
  let calculations : Dict :=
    match calculations with
    | none => [("default", Json.obj [])]
    | some c => c
  let request_body : Dict :=
    [("input", Json.obj [("bounds", request_bounds),
                         ("data", Json.arr (data.map Json.obj))]),
     ("aggregation", aggregation),
     ("calculations", Json.obj calculations)]
  if truthy other_args then update_other_args request_body (other_args.getD [])
  else request_body

/-- A serialized time bound as produced by the time-utilities collaborator:
a string, or `None` when the interval end is undefined
(`allow_undefined=True`).  Python stores it in the payload as-is. -/
def time_json : Option String → Json
  | none => Json.null
  | some s => Json.str s

/-- The aggregation payload built after
`serialize_time(parse_time_interval(...))` has returned the pair
`(start_time, end_time)`: the dictionary literal, the conditional unpacking
of `size` into `width`/`height` and of `resolution` into `resx`/`resy`
(fresh keys appended in that insertion order), and the guarded merge of
`other_args`. -/
def aggregation_payload (start_time end_time : Option String) (evalscript : String)
    (aggregation_interval : String) (size : Option (Json × Json))
    (resolution : Option (Json × Json)) (other_args : Option Dict) : Dict :=
  let payload : Dict :=
    [("evalscript", Json.str evalscript),
     ("timeRange", Json.obj [("from", time_json start_time),
                             ("to", time_json end_time)]),
     ("aggregationInterval", Json.obj [("of", Json.str aggregation_interval)])]
  let payload :=
    match size with
    | none => payload
    | some (w, h) => payload ++ [("width", w), ("height", h)]
  let payload :=
    match resolution with
    | none => payload
    | some (rx, ry) => payload ++ [("resx", rx), ("resy", ry)]
  if truthy other_args then update_other_args payload (other_args.getD [])
  else payload

/-- `SentinelHubStatistical.aggregation`: generates the `aggregation` part
of the request body.  Its first statement calls the time-utilities
collaborator (`serialize_time(parse_time_interval(time_interval,
allow_undefined=True), use_tz=True)`), whose code is outside the examined
source; it is embedded as the function argument `serialize_parse` over an
abstract interval type `τ` and error type `ε`, returning either the pair of
serialized bounds or an error that `aggregation` does not catch.  The rest
of the method is pure dictionary construction, `aggregation_payload`. -/
def aggregation {τ ε : Type} (serialize_parse : τ → Except ε (Option String × Option String))
    (evalscript : String) (time_interval : τ) (aggregation_interval : String)
    (size : Option (Json × Json)) (resolution : Option (Json × Json))
    (other_args : Option Dict) : Except ε Dict :=
  match serialize_parse time_interval with
  | Except.error e => Except.error e
  | Except.ok (start_time, end_time) =>
      Except.ok (aggregation_payload start_time end_time evalscript
        aggregation_interval size resolution other_args)

/-- Modelled from the spec: the MIME-type enumeration from the `constants`
collaborator module (outside the examined source); the Statistical API
always declares JSON. -/
inductive MimeType where
  | JSON : MimeType
  | TIFF : MimeType
deriving DecidableEq

/-- Modelled from the spec: the bounds resolver `bounds(bbox, geometry)`
from the base-request collaborator (outside the examined source): it
produces an opaque bounds descriptor from exactly one of `bbox` and
`geometry`, and fails if both or neither are supplied. -/
def bounds (bbox : Option Json) (geometry : Option Json) : Except String Json :=
  match bbox, geometry with
  | some b, none => Except.ok (Json.obj [("bbox", b)])
  | none, some g => Except.ok (Json.obj [("geometry", g)])
  | _, _ => Except.error "bounds requires exactly one of bbox and geometry"

/-- The state `SentinelHubStatistical.__init__` stores on the request
object: the declared response MIME type and the materialized payload. -/
structure RequestState where
  mime_type : MimeType
  payload : Dict

/-- `SentinelHubStatistical.__init__`: sets `mime_type = MimeType.JSON` and
stores `body(bounds(bbox, geometry), input_data, aggregation,
calculations)`; a failure of the bounds resolver propagates. -/
def init (aggregation : Json) (input_data : List Dict) (bbox : Option Json)
    (geometry : Option Json) (calculations : Option Dict) :
    Except String RequestState :=
  match bounds bbox geometry with
  | Except.error e => Except.error e
  | Except.ok request_bounds =>
      Except.ok { mime_type := MimeType.JSON,
                  payload := body request_bounds input_data aggregation calculations none }

example : hasKey [("a", Json.null)] "a" = true := by rfl
example : lookup [("a", Json.num 3), ("b", Json.null)] "b" = some Json.null := by rfl

theorem hasKey_append_self (d : Dict) (q : String) (v : Json) :
    hasKey (d ++ [(q, v)]) q = true := by
  simp [hasKey]

theorem normalize_hasKey (d : Dict) :
    hasKey (normalize_data_filter d) "dataFilter" = true := by
  unfold normalize_data_filter
  split
  · assumption
  · exact hasKey_append_self d "dataFilter" (Json.obj [])

theorem normalize_of_hasKey (d : Dict) (h : hasKey d "dataFilter" = true) :
    normalize_data_filter d = d := by
  simp [normalize_data_filter, h]

theorem normalize_of_not_hasKey (d : Dict) (h : hasKey d "dataFilter" = false) :
    normalize_data_filter d = d ++ [("dataFilter", Json.obj [])] := by
  simp [normalize_data_filter, h]

theorem normalize_idem (d : Dict) :
    normalize_data_filter (normalize_data_filter d) = normalize_data_filter d :=
  normalize_of_hasKey _ (normalize_hasKey d)

theorem mutated_idem (rd : List Dict) :
    mutated_request_data (mutated_request_data rd) = mutated_request_data rd := by
  induction rd with
  | nil => rfl
  | cons d rest ih =>
      simp only [mutated_request_data, List.map_cons] at *
      rw [normalize_idem, ih]

theorem mutated_of_all_hasKey (rd : List Dict)
    (h : ∀ d ∈ rd, hasKey d "dataFilter" = true) :
    mutated_request_data rd = rd := by
  induction rd with
  | nil => rfl
  | cons d rest ih =>
      have hd := h d (List.mem_cons_self d rest)
      have hrest := ih fun x hx => h x (List.mem_cons_of_mem d hx)
      simp only [mutated_request_data, List.map_cons] at *
      rw [normalize_of_hasKey d hd, hrest]

theorem lookup_eq_none_of_hasKey_false (d : Dict) (q : String)
    (h : hasKey d q = false) : lookup d q = none := by
  induction d with
  | nil => rfl
  | cons p rest ih =>
      obtain ⟨k, v⟩ := p
      simp [hasKey] at h
      simp [lookup, h.1, ih (by simp [hasKey]; exact h.2)]

theorem lookup_append_fresh (d : Dict) (q : String) (v : Json)
    (h : hasKey d q = false) : lookup (d ++ [(q, v)]) q = some v := by
  induction d with
  | nil => simp [lookup]
  | cons p rest ih =>
      obtain ⟨k, w⟩ := p
      simp [hasKey] at h
      simp [lookup, h.1, ih (by simp [hasKey]; exact h.2)]

theorem lookup_append_ne (d : Dict) (k q : String) (v : Json) (h : q ≠ k) :
    lookup (d ++ [(k, v)]) q = lookup d q := by
  induction d with
  | nil => simp [lookup, Ne.symm h]
  | cons p rest ih =>
      obtain ⟨k2, v2⟩ := p
      by_cases hk : (k2 == q) = true
      · simp [lookup, hk]
      · simp only [List.cons_append, lookup, if_neg hk]
        exact ih

theorem mutated_length (rd : List Dict) :
    (mutated_request_data rd).length = rd.length := by
  simp [mutated_request_data]

theorem mutated_get (rd : List Dict) (i : Nat) (hi : i < rd.length)
    (hm : i < (mutated_request_data rd).length) :
    (mutated_request_data rd).get ⟨i, hm⟩ =
      normalize_data_filter (rd.get ⟨i, hi⟩) := by
  simp [mutated_request_data]

/-- C1: for every sequence of input-data dictionaries passed as
`request_data`, `body` returns a payload in which every element of
`input.data` has a `dataFilter` key (the empty object for elements that
lacked it), and elements that already contained a `dataFilter` key are left
unchanged by the normalization. -/
theorem body_dataFilter_invariant (request_bounds aggr : Json)
    (request_data : List Dict) (calculations : Option Dict) :
    (∀ d ∈ mutated_request_data request_data, hasKey d "dataFilter" = true) ∧
    (∀ d ∈ request_data, hasKey d "dataFilter" = true → normalize_data_filter d = d) ∧
    lookup (body request_bounds request_data aggr calculations none) "input" =
      some (Json.obj [("bounds", request_bounds),
        ("data", Json.arr ((mutated_request_data request_data).map Json.obj))]) := by
  refine ⟨?_, ?_, rfl⟩
  · intro d hd
    simp [mutated_request_data] at hd
    obtain ⟨d0, _, rfl⟩ := hd
    exact normalize_hasKey d0
  · intro d _ hk
    exact normalize_of_hasKey d hk

/-- C1 witness: the invariant evaluated on a concrete two-element
`request_data`, one element lacking `dataFilter` and one already carrying
it. -/
theorem body_dataFilter_invariant_witness :
    normalize_data_filter [("dataFilter", Json.obj [("maxcc", Json.num 1)])] =
      [("dataFilter", Json.obj [("maxcc", Json.num 1)])] ∧
    lookup (body Json.null
        [[("type", Json.str "S2L2A")], [("dataFilter", Json.obj [("maxcc", Json.num 1)])]]
        Json.null none none) "input" =
      some (Json.obj [("bounds", Json.null),
        ("data", Json.arr
          [Json.obj [("type", Json.str "S2L2A"), ("dataFilter", Json.obj [])],
           Json.obj [("dataFilter", Json.obj [("maxcc", Json.num 1)])]])]) := by
  have h := body_dataFilter_invariant Json.null Json.null
      [[("type", Json.str "S2L2A")], [("dataFilter", Json.obj [("maxcc", Json.num 1)])]] none
  exact ⟨h.2.1 _ (by simp) rfl, h.2.2⟩

/-- C2 counterexample: the claim states that an *empty* `calculations`
dictionary is replaced by the default, but the source only checks
`calculations is None`; with `calculations = {}` the payload keeps the
empty dictionary. -/
theorem body_calculations_empty_counterexample :
    lookup (body Json.null [] Json.null (some []) none) "calculations" ≠
      some (Json.obj [("default", Json.obj [])]) := by
  intro h
  have h2 : some (Json.obj ([] : Dict)) = some (Json.obj [("default", Json.obj [])]) := h
  simp at h2

/-- C2 (amended): if `calculations` is omitted (`None`), the `calculations`
value of the payload is `{"default": {}}`; if `calculations` is any
dictionary — empty or not — the payload keeps that dictionary unchanged. -/
theorem body_calculations_policy (request_bounds aggr : Json) (request_data : List Dict) :
    lookup (body request_bounds request_data aggr none none) "calculations" =
      some (Json.obj [("default", Json.obj [])]) ∧
    ∀ calculations : Dict,
      lookup (body request_bounds request_data aggr (some calculations) none) "calculations" =
        some (Json.obj calculations) :=
  ⟨rfl, fun _ => rfl⟩

/-- C5: with `other_args` omitted, `body` returns exactly the top-level
keys `input`, `aggregation` and `calculations`, where `input` holds exactly
`bounds` (the given `request_bounds`) and `data` (the given `request_data`
sequence, as normalized in place by the call; when every element already
has a `dataFilter` key this is the given sequence verbatim). -/
theorem body_top_level_shape (request_bounds aggr : Json) (request_data : List Dict)
    (calculations : Option Dict) :
    (body request_bounds request_data aggr calculations none =
      [("input", Json.obj [("bounds", request_bounds),
         ("data", Json.arr ((mutated_request_data request_data).map Json.obj))]),
       ("aggregation", aggr),
       ("calculations", Json.obj (match calculations with
         | none => [("default", Json.obj [])]
         | some c => c))]) ∧
    ((∀ d ∈ request_data, hasKey d "dataFilter" = true) →
      mutated_request_data request_data = request_data) :=
  ⟨rfl, mutated_of_all_hasKey request_data⟩

/-- C5 witness: the exact payload shape evaluated at a concrete call. -/
theorem body_top_level_shape_witness :
    body (Json.str "B") [[("dataFilter", Json.obj [])]] (Json.str "A") none none =
      [("input", Json.obj [("bounds", Json.str "B"),
         ("data", Json.arr [Json.obj [("dataFilter", Json.obj [])]])]),
       ("aggregation", Json.str "A"),
       ("calculations", Json.obj [("default", Json.obj [])])] ∧
    mutated_request_data [[("dataFilter", Json.obj [])]] = [[("dataFilter", Json.obj [])]] := by
  have h := body_top_level_shape (Json.str "B") (Json.str "A") [[("dataFilter", Json.obj [])]] none
  refine ⟨h.1, h.2 ?_⟩
  intro d hd
  simp at hd
  subst hd
  rfl

/-- C8: the `dataFilter` normalization is idempotent: normalizing an
already-normalized element changes nothing, sequences whose elements all
carry the key pass through unchanged, and feeding the normalized sequence
back into `body` yields the same payload as the original call. -/
theorem normalization_idempotent (request_data : List Dict) :
    (∀ d, normalize_data_filter (normalize_data_filter d) = normalize_data_filter d) ∧
    mutated_request_data (mutated_request_data request_data) =
      mutated_request_data request_data ∧
    ((∀ d ∈ request_data, hasKey d "dataFilter" = true) →
      mutated_request_data request_data = request_data) ∧
    ∀ (request_bounds aggr : Json) (calculations other_args : Option Dict),
      body request_bounds (mutated_request_data request_data) aggr calculations other_args =
        body request_bounds request_data aggr calculations other_args := by
  refine ⟨normalize_idem, mutated_idem request_data, mutated_of_all_hasKey request_data, ?_⟩
  intro rb aggr c oa
  simp only [body, mutated_idem]

/-- C8 witness: idempotence evaluated on a concrete already-normalized
sequence. -/
theorem normalization_idempotent_witness :
    normalize_data_filter (normalize_data_filter []) = normalize_data_filter [] ∧
    mutated_request_data [[("dataFilter", Json.obj [])]] = [[("dataFilter", Json.obj [])]] := by
  have h := normalization_idempotent [[("dataFilter", Json.obj [])]]
  refine ⟨h.1 [], h.2.2.1 ?_⟩
  intro d hd
  simp at hd
  subst hd
  rfl

/-- C10: because the merge step is guarded by Python truthiness
(`if other_args:`), passing `other_args = {}` behaves exactly like
`other_args = None` for both `body` and `aggregation`: no merge runs and
the payloads coincide. -/
theorem other_args_empty_like_none {τ ε : Type}
    (sp : τ → Except ε (Option String × Option String))
    (request_bounds aggr : Json) (request_data : List Dict) (calculations : Option Dict)
    (evalscript : String) (time_interval : τ) (aggregation_interval : String)
    (size resolution : Option (Json × Json)) :
    body request_bounds request_data aggr calculations (some []) =
      body request_bounds request_data aggr calculations none ∧
    aggregation sp evalscript time_interval aggregation_interval size resolution (some []) =
      aggregation sp evalscript time_interval aggregation_interval size resolution none := by
  constructor
  · rfl
  · unfold aggregation
    cases sp time_interval with
    | error e => rfl
    | ok p =>
        obtain ⟨s, e⟩ := p
        rfl

/-- C3: under a successful time-collaborator call, `aggregation` given
`size` and no `resolution` yields a payload with `width`/`height` set to the
given pair and no `resx`/`resy` keys; given `resolution` and no `size` it
yields `resx`/`resy` and no `width`/`height`; given neither it yields none
of the four keys. -/
theorem aggregation_size_resolution {τ ε : Type}
    (sp : τ → Except ε (Option String × Option String)) (time_interval : τ)
    (start_time end_time : Option String)
    (h : sp time_interval = Except.ok (start_time, end_time))
    (evalscript aggregation_interval : String) (w ht rx ry : Json) :
    (∀ size resolution : Option (Json × Json),
      aggregation sp evalscript time_interval aggregation_interval size resolution none =
        Except.ok (aggregation_payload start_time end_time evalscript aggregation_interval
          size resolution none)) ∧
    (lookup (aggregation_payload start_time end_time evalscript aggregation_interval
        (some (w, ht)) none none) "width" = some w ∧
     lookup (aggregation_payload start_time end_time evalscript aggregation_interval
        (some (w, ht)) none none) "height" = some ht ∧
     hasKey (aggregation_payload start_time end_time evalscript aggregation_interval
        (some (w, ht)) none none) "resx" = false ∧
     hasKey (aggregation_payload start_time end_time evalscript aggregation_interval
        (some (w, ht)) none none) "resy" = false) ∧
    (lookup (aggregation_payload start_time end_time evalscript aggregation_interval
        none (some (rx, ry)) none) "resx" = some rx ∧
     lookup (aggregation_payload start_time end_time evalscript aggregation_interval
        none (some (rx, ry)) none) "resy" = some ry ∧
     hasKey (aggregation_payload start_time end_time evalscript aggregation_interval
        none (some (rx, ry)) none) "width" = false ∧
     hasKey (aggregation_payload start_time end_time evalscript aggregation_interval
        none (some (rx, ry)) none) "height" = false) ∧
    (hasKey (aggregation_payload start_time end_time evalscript aggregation_interval
        none none none) "width" = false ∧
     hasKey (aggregation_payload start_time end_time evalscript aggregation_interval
        none none none) "height" = false ∧
     hasKey (aggregation_payload start_time end_time evalscript aggregation_interval
        none none none) "resx" = false ∧
     hasKey (aggregation_payload start_time end_time evalscript aggregation_interval
        none none none) "resy" = false) := by
  refine ⟨?_, ⟨rfl, rfl, rfl, rfl⟩, ⟨rfl, rfl, rfl, rfl⟩, ⟨rfl, rfl, rfl, rfl⟩⟩
  intro size resolution
  unfold aggregation
  rw [h]

/-- C3 witness: the three cases evaluated at `size=(512,512)` and
`resolution=(10,10)` under a concrete successful time collaborator. -/
theorem aggregation_size_resolution_witness :
    (∀ size resolution : Option (Json × Json),
      aggregation (fun _ : Unit => (Except.ok (some "2020-01-01T00:00:00Z",
          some "2020-02-01T00:00:00Z") : Except String (Option String × Option String)))
        "ndvi" () "P1D" size resolution none =
        Except.ok (aggregation_payload (some "2020-01-01T00:00:00Z")
          (some "2020-02-01T00:00:00Z") "ndvi" "P1D" size resolution none)) ∧
    (lookup (aggregation_payload (some "2020-01-01T00:00:00Z") (some "2020-02-01T00:00:00Z")
        "ndvi" "P1D" (some (Json.num 512, Json.num 512)) none none) "width" =
        some (Json.num 512) ∧
     lookup (aggregation_payload (some "2020-01-01T00:00:00Z") (some "2020-02-01T00:00:00Z")
        "ndvi" "P1D" (some (Json.num 512, Json.num 512)) none none) "height" =
        some (Json.num 512) ∧
     hasKey (aggregation_payload (some "2020-01-01T00:00:00Z") (some "2020-02-01T00:00:00Z")
        "ndvi" "P1D" (some (Json.num 512, Json.num 512)) none none) "resx" = false ∧
     hasKey (aggregation_payload (some "2020-01-01T00:00:00Z") (some "2020-02-01T00:00:00Z")
        "ndvi" "P1D" (some (Json.num 512, Json.num 512)) none none) "resy" = false) ∧
    (lookup (aggregation_payload (some "2020-01-01T00:00:00Z") (some "2020-02-01T00:00:00Z")
        "ndvi" "P1D" none (some (Json.num 10, Json.num 10)) none) "resx" =
        some (Json.num 10) ∧
     lookup (aggregation_payload (some "2020-01-01T00:00:00Z") (some "2020-02-01T00:00:00Z")
        "ndvi" "P1D" none (some (Json.num 10, Json.num 10)) none) "resy" =
        some (Json.num 10) ∧
     hasKey (aggregation_payload (some "2020-01-01T00:00:00Z") (some "2020-02-01T00:00:00Z")
        "ndvi" "P1D" none (some (Json.num 10, Json.num 10)) none) "width" = false ∧
     hasKey (aggregation_payload (some "2020-01-01T00:00:00Z") (some "2020-02-01T00:00:00Z")
        "ndvi" "P1D" none (some (Json.num 10, Json.num 10)) none) "height" = false) ∧
    (hasKey (aggregation_payload (some "2020-01-01T00:00:00Z") (some "2020-02-01T00:00:00Z")
        "ndvi" "P1D" none none none) "width" = false ∧
     hasKey (aggregation_payload (some "2020-01-01T00:00:00Z") (some "2020-02-01T00:00:00Z")
        "ndvi" "P1D" none none none) "height" = false ∧
     hasKey (aggregation_payload (some "2020-01-01T00:00:00Z") (some "2020-02-01T00:00:00Z")
        "ndvi" "P1D" none none none) "resx" = false ∧
     hasKey (aggregation_payload (some "2020-01-01T00:00:00Z") (some "2020-02-01T00:00:00Z")
        "ndvi" "P1D" none none none) "resy" = false) :=
  aggregation_size_resolution _ () _ _ rfl "ndvi" "P1D"
    (Json.num 512) (Json.num 512) (Json.num 10) (Json.num 10)

/-- C6: with `size`, `resolution` and `other_args` all omitted and a
successful time-collaborator call returning the serialized bounds,
`aggregation` returns exactly the keys `evalscript`, `timeRange` (an object
with `from` and `to` holding the serialized start and end) and
`aggregationInterval` (the object `of ↦ aggregation_interval`). -/
theorem aggregation_default_exact {τ ε : Type}
    (sp : τ → Except ε (Option String × Option String)) (time_interval : τ)
    (start_time end_time : Option String)
    (h : sp time_interval = Except.ok (start_time, end_time))
    (evalscript aggregation_interval : String) :
    aggregation sp evalscript time_interval aggregation_interval none none none =
      Except.ok [("evalscript", Json.str evalscript),
                 ("timeRange", Json.obj [("from", time_json start_time),
                                         ("to", time_json end_time)]),
                 ("aggregationInterval", Json.obj [("of", Json.str aggregation_interval)])] := by
  unfold aggregation
  rw [h]
  rfl

/-- C6 witness: the exact default aggregation payload at a concrete
interval. -/
theorem aggregation_default_exact_witness :
    aggregation (fun _ : Unit => (Except.ok (some "2020-06-01T00:00:00Z",
        some "2020-06-30T00:00:00Z") : Except String (Option String × Option String)))
      "evalscript-src" () "P10D" none none none =
      Except.ok [("evalscript", Json.str "evalscript-src"),
                 ("timeRange", Json.obj [("from", time_json (some "2020-06-01T00:00:00Z")),
                                         ("to", time_json (some "2020-06-30T00:00:00Z"))]),
                 ("aggregationInterval", Json.obj [("of", Json.str "P10D")])] :=
  aggregation_default_exact _ () _ _ rfl "evalscript-src" "P10D"

/-- C9: `aggregation` raises nothing of its own: whenever the time
collaborator succeeds the call returns a payload without error, and
whenever the collaborator fails the very same error is propagated
unmodified. -/
theorem aggregation_error_propagation {τ ε : Type}
    (sp : τ → Except ε (Option String × Option String))
    (evalscript : String) (time_interval : τ) (aggregation_interval : String)
    (size resolution : Option (Json × Json)) (other_args : Option Dict) :
    (∀ start_time end_time,
      sp time_interval = Except.ok (start_time, end_time) →
        aggregation sp evalscript time_interval aggregation_interval size resolution other_args =
          Except.ok (aggregation_payload start_time end_time evalscript aggregation_interval
            size resolution other_args)) ∧
    (∀ err, sp time_interval = Except.error err →
      aggregation sp evalscript time_interval aggregation_interval size resolution other_args =
        Except.error err) := by
  constructor
  · intro s e h
    unfold aggregation
    rw [h]
  · intro err h
    unfold aggregation
    rw [h]

/-- C9 witness: propagation evaluated for one failing and one succeeding
concrete collaborator. -/
theorem aggregation_error_propagation_witness :
    aggregation (fun _ : Unit => (Except.error "invalid time interval" :
        Except String (Option String × Option String)))
      "ndvi" () "P1D" none none none = Except.error "invalid time interval" ∧
    aggregation (fun _ : Unit => (Except.ok (none, none) :
        Except String (Option String × Option String)))
      "ndvi" () "P1D" none none none =
      Except.ok (aggregation_payload none none "ndvi" "P1D" none none none) :=
  ⟨(aggregation_error_propagation _ "ndvi" () "P1D" none none none).2
      "invalid time interval" rfl,
   (aggregation_error_propagation _ "ndvi" () "P1D" none none none).1 none none rfl⟩

/-- C4: constructing the request object with a bbox, a single input-data
entry lacking `dataFilter`, an aggregation dictionary and no calculations
stores `mime_type = JSON` and a payload whose `input.data[0]` gained
`dataFilter ↦ {}` and whose `calculations` is the default. -/
theorem init_end_to_end (aggr bbox : Json) (d : Dict)
    (h : hasKey d "dataFilter" = false) :
    init aggr [d] (some bbox) none none =
      Except.ok (RequestState.mk MimeType.JSON
        [("input", Json.obj [("bounds", Json.obj [("bbox", bbox)]),
            ("data", Json.arr [Json.obj (d ++ [("dataFilter", Json.obj [])])])]),
         ("aggregation", aggr),
         ("calculations", Json.obj [("default", Json.obj [])])]) ∧
    lookup (d ++ [("dataFilter", Json.obj [])]) "dataFilter" = some (Json.obj []) := by
  constructor
  · simp [init, bounds, body, mutated_request_data, normalize_data_filter, h, truthy]
  · exact lookup_append_fresh d "dataFilter" (Json.obj []) h

/-- C4 witness: the end-to-end construction at a concrete bbox and
input-data entry. -/
theorem init_end_to_end_witness :
    init (Json.str "agg") [[("type", Json.str "sentinel-2-l2a")]]
        (some (Json.arr [Json.num 12, Json.num 41, Json.num 13, Json.num 42])) none none =
      Except.ok (RequestState.mk MimeType.JSON
        [("input", Json.obj [("bounds",
              Json.obj [("bbox", Json.arr [Json.num 12, Json.num 41, Json.num 13, Json.num 42])]),
            ("data", Json.arr [Json.obj ([("type", Json.str "sentinel-2-l2a")] ++
              [("dataFilter", Json.obj [])])])]),
         ("aggregation", Json.str "agg"),
         ("calculations", Json.obj [("default", Json.obj [])])]) ∧
    lookup ([("type", Json.str "sentinel-2-l2a")] ++ [("dataFilter", Json.obj [])])
      "dataFilter" = some (Json.obj []) :=
  init_end_to_end (Json.str "agg")
    (Json.arr [Json.num 12, Json.num 41, Json.num 13, Json.num 42])
    [("type", Json.str "sentinel-2-l2a")] rfl

/-- C7: `body` threads the caller-supplied `request_data` through the in-place
normalization: the post-call sequence has the same length; an element that
lacked `dataFilter` becomes the old element with exactly `dataFilter ↦ {}`
appended (so it now has the key, mapped to the empty object, and every
other key keeps its value); an element that had the key is untouched; and
the other arguments (`request_bounds`, `aggregation`, `calculations`) pass
into the payload unmodified. -/
theorem body_mutates_request_data_in_place (request_data : List Dict) :
    (mutated_request_data request_data).length = request_data.length ∧
    (∀ (i : Nat) (hi : i < request_data.length)
        (hm : i < (mutated_request_data request_data).length),
      (hasKey (request_data.get ⟨i, hi⟩) "dataFilter" = false →
        (mutated_request_data request_data).get ⟨i, hm⟩ =
          request_data.get ⟨i, hi⟩ ++ [("dataFilter", Json.obj [])] ∧
        lookup ((mutated_request_data request_data).get ⟨i, hm⟩) "dataFilter" =
          some (Json.obj [])) ∧
      (hasKey (request_data.get ⟨i, hi⟩) "dataFilter" = true →
        (mutated_request_data request_data).get ⟨i, hm⟩ = request_data.get ⟨i, hi⟩) ∧
      (∀ q, q ≠ "dataFilter" →
        lookup ((mutated_request_data request_data).get ⟨i, hm⟩) q =
          lookup (request_data.get ⟨i, hi⟩) q)) ∧
    ∀ (request_bounds aggr : Json) (calculations : Dict),
      body request_bounds request_data aggr (some calculations) none =
        [("input", Json.obj [("bounds", request_bounds),
           ("data", Json.arr ((mutated_request_data request_data).map Json.obj))]),
         ("aggregation", aggr),
         ("calculations", Json.obj calculations)] := by
  refine ⟨mutated_length request_data, ?_, fun _ _ _ => rfl⟩
  intro i hi hm
  rw [mutated_get request_data i hi hm]
  refine ⟨?_, ?_, ?_⟩
  · intro hk
    rw [normalize_of_not_hasKey _ hk]
    exact ⟨rfl, lookup_append_fresh _ _ _ hk⟩
  · intro hk
    exact normalize_of_hasKey _ hk
  · intro q hq
    cases hx : hasKey (request_data.get ⟨i, hi⟩) "dataFilter" with
    | true => rw [normalize_of_hasKey _ hx]
    | false =>
        rw [normalize_of_not_hasKey _ hx]
        exact lookup_append_ne _ _ _ _ hq

/-- C7 witness: the mutation frame conditions evaluated on a concrete
one-element sequence lacking `dataFilter`. -/
theorem body_mutates_request_data_in_place_witness :
    (mutated_request_data [[("type", Json.str "S2")]]).get ⟨0, by decide⟩ =
      [("type", Json.str "S2")] ++ [("dataFilter", Json.obj [])] ∧
    lookup ((mutated_request_data [[("type", Json.str "S2")]]).get ⟨0, by decide⟩)
      "dataFilter" = some (Json.obj []) ∧
    lookup ((mutated_request_data [[("type", Json.str "S2")]]).get ⟨0, by decide⟩) "type" =
      lookup [("type", Json.str "S2")] "type" := by
  have h := body_mutates_request_data_in_place [[("type", Json.str "S2")]]
  have h1 := (h.2.1 0 (by decide) (by decide)).1 rfl
  have h2 := (h.2.1 0 (by decide) (by decide)).2.2 "type" (by decide)
  exact ⟨h1.1, h1.2, h2⟩

end SentinelhubStatistical
